import Mathlib

/-!
Verification development for the REST client of hide.client.linux (`rest/client.go`).

The Go code is shallowly embedded: pure control flow is translated directly; the
outcomes of I/O actions (file reads, DNS lookups, the HTTP round trip, the
`setsockopt` call) are passed in as explicit parameters, so every function here is
a computable Lean function of the code's inputs.  Machine integers (`int`) are
modelled as `Int`, byte slices as `List Nat` (a `nil` slice as `none` where the Go
code distinguishes `nil` from empty), and Go strings as `String`.  Errors are
modelled by the `String` the corresponding Go `error` carries.
-/

namespace HideClient

/-! ## Certificates and the pin verifier (`Client.Pins`) -/

/-- Model of the fields of `x509.Certificate` read by the client.  The
cryptography is abstracted: `spkiDigestB64` stands for the base64-encoded SHA-256
digest of `RawSubjectPublicKeyInfo`, the value the Go code computes with
`sha256.Sum256` and `base64.StdEncoding.EncodeToString`. -/
structure Certificate where
  isCA : Bool
  subjectCN : String
  issuerCN : String
  spkiDigestB64 : String
deriving DecidableEq, Repr

/-- The `authorizedPins` table built in `NewClient`.  Go iterates the map in an
unspecified order, but `Pins` only tests membership, so an association list is an
order-faithful model. -/
def authorizedPins : List (String × String) := [
  ("Hide.Me Root CA", "AdKh8rXi68jeqv5kEzF4wJ9M2R89gFuMILRQ1uwADQI="),
  ("Hide.Me Server CA #1", "CsEyDelMHMPh9qLGgeQn8sJwdUwvc+fCMhOU9Ne5PbU="),
  ("DigiCert Global Root CA", "r/mIkG3eEpVdm+u/ko/cwxzOMo1bk4TyHIlByibiA5E="),
  ("DigiCert TLS RSA SHA256 2020 CA1", "RQeZkB42znUfsDIIFWIRiYEcKl7nHwNFwWCrnMMJbVc=")
]

/-- The per-certificate test of the inner loop of `Client.Pins`: some table entry
matches both `certificate.Subject.CommonName` and the digest. -/
def certPinOK (c : Certificate) : Bool :=
  authorizedPins.any (fun p => c.subjectCN == p.1 && c.spkiDigestB64 == p.2)

/-- The same lookup worded as the specification words it: the pair looked up is
(issuer common name, digest) rather than (subject common name, digest). -/
def certPinOKIssuer (c : Certificate) : Bool :=
  authorizedPins.any (fun p => c.issuerCN == p.1 && c.spkiDigestB64 == p.2)

/-- The `chainLoop` of `Client.Pins` over one verified chain: skip non-CA
certificates, pass a CA certificate that matches some table entry, return
`ErrBadPin` at the first CA certificate that matches none. -/
def checkChain : List Certificate → Option String
  | [] => none
  | c :: rest =>
    if !c.isCA then checkChain rest
    else if certPinOK c then checkChain rest
    else some "bad public key PIN"

/-- `Client.Pins`: iterate the verified chains; the first failing chain aborts the
whole verification with `ErrBadPin` (`none` models the `nil` error). -/
def Pins : List (List Certificate) → Option String
  | [] => none
  | chain :: rest =>
    match checkChain chain with
    | some e => some e
    | none => Pins rest

/-! ## Go's `base64.StdEncoding.DecodeString`

`DecodeString` is modelled faithfully at the byte level because the client's
behaviour on malformed input depends on its exact contract: it returns the bytes
decoded *before* the error together with the error, and the returned slice is
always non-nil (it is a prefix of a freshly `make`d buffer).  The
`CorruptInputError` position is abstracted to a `Bool` error flag; no claim
depends on the position. -/

/-- `decodeMap` of the standard base64 alphabet. -/
def b64Val (c : Char) : Option Nat :=
  if 'A' ≤ c ∧ c ≤ 'Z' then some (c.toNat - 65)
  else if 'a' ≤ c ∧ c ≤ 'z' then some (c.toNat - 97 + 26)
  else if '0' ≤ c ∧ c ≤ '9' then some (c.toNat - 48 + 52)
  else if c = '+' then some 62
  else if c = '/' then some 63
  else none

/-- Newline skipping inside a quantum, as Go's `decodeQuantum` does for
`'\n'` and `'\r'`. -/
def skipNewlines : List Char → List Char
  | [] => []
  | c :: rest => if c = '\n' ∨ c = '\r' then skipNewlines rest else c :: rest

/-- Byte output of one quantum of `dlen ∈ {2,3,4}` six-bit values (the `dbuf`
assembly and the `dlen` switch of Go's `decodeQuantum`). -/
def emitQuantum (vals : List Nat) : List Nat :=
  let val := (vals.foldl (fun acc v => acc * 64 + v) 0) * 64 ^ (4 - vals.length)
  List.take (vals.length - 1) [val / 65536 % 256, val / 256 % 256, val % 256]

/-- Go's `decodeQuantum`: collect up to four six-bit values, handling newlines and
`'='` padding; result is (decoded bytes, remaining input, error flag).  On an
error the decoded bytes of the failing quantum are dropped (Go returns `n = 0`
for it); on clean padding the rest of the input after trailing-newline skipping
must be empty, else the quantum's bytes are kept but the error flag is set
(Go's "trailing garbage" `CorruptInputError`). -/
def dqLoop : List Char → List Nat → List Nat × List Char × Bool
  | [], vals =>
    if vals.length == 4 then (emitQuantum vals, [], false)
    else if vals.isEmpty then ([], [], false)
    else ([], [], true)
  | c :: rest, vals =>
    if vals.length == 4 then (emitQuantum vals, c :: rest, false)
    else
      match b64Val c with
      | some v => dqLoop rest (vals ++ [v])
      | none =>
        if c = '\n' ∨ c = '\r' then dqLoop rest vals
        else if c = '=' then
          if vals.length == 2 then
            match skipNewlines rest with
            | [] => ([], [], true)
            | c2 :: rest2 =>
              if c2 = '=' then (emitQuantum vals, [], !(skipNewlines rest2).isEmpty)
              else ([], [], true)
          else if vals.length == 3 then
            (emitQuantum vals, [], !(skipNewlines rest).isEmpty)
          else ([], [], true)
        else ([], [], true)

/-- The outer loop of Go's `Decode`: decode quanta until the input is exhausted
or a quantum errors, accumulating output.  Each quantum consumes at least one
character, so fuel equal to the input length never runs out. -/
def goDecodeLoop : Nat → List Char → List Nat → List Nat × Bool
  | _, [], acc => (acc, false)
  | 0, _ :: _, acc => (acc, false)
  | fuel + 1, c :: rest, acc =>
    let q := dqLoop (c :: rest) []
    if q.2.2 then (acc ++ q.1, true)
    else goDecodeLoop fuel q.2.1 (acc ++ q.1)

/-- `base64.StdEncoding.DecodeString`: bytes decoded before any error, plus an
error flag.  The Go function's returned slice is non-nil even when empty, which
is why callers assigning its result to a `[]byte` field always leave the field
non-nil. -/
def goBase64Decode (s : String) : List Nat × Bool :=
  goDecodeLoop s.length s.toList []

/-! ## Configuration, construction (`NewClient`) and the token store -/

/-- The scalar fields of `rest.Config`.  `time.Duration` fields are `Int`
nanosecond counts; the `Filter` field's type lives outside `rest/client.go` and
is carried opaquely by the operations that use it, so it is not part of this
record. -/
structure Config where
  apiVersion : String
  host : String
  port : Int
  domain : String
  accessTokenFile : String
  username : String
  password : String
  restTimeout : Int
  reconnectWait : Int
  accessTokenUpdateDelay : Int
  ca : String
  firewallMark : Int
  dnsServers : String
deriving DecidableEq, Repr

/-- `net.TCPAddr` restricted to the fields the client uses (`Zone` never set). -/
structure TCPAddr where
  ip : List Nat
  port : Int
deriving DecidableEq, Repr

/-- The mutable fields of `rest.Client` the claims are about: the TLS
`ServerName` of the transport, the sticky remote address, and the in-memory
access token (`none` models the `nil` slice). -/
structure ClientState where
  config : Config
  serverName : String
  remote : Option TCPAddr
  accessToken : Option (List Nat)
  dnsServers : List String
deriving DecidableEq, Repr

/-- `net.IP.String` for the 4-byte case; the client only ever formats addresses
it was handed as byte lists. -/
def ipString (ip : List Nat) : String :=
  String.intercalate "." (ip.map toString)

/-- `(*net.TCPAddr).String`, which is nil-receiver safe: a `nil` pointer prints
as `"<nil>"`. -/
def tcpAddrString : Option TCPAddr → String
  | none => "<nil>"
  | some a => ipString a.ip ++ ":" ++ toString a.port

/-- `rest.NewClient`.  `readFile` supplies the outcome of `os.ReadFile` /
`ioutil.ReadFile` per path; `caAppendOk` the outcome of
`AppendCertsFromPEM` when a CA bundle is configured.  A failure to read or
decode the access-token file is swallowed (`acErr == nil` guard, discarded
decode error), but the decode result — partial bytes and all — is still assigned
to `accessToken` whenever the file was readable. -/
def NewClient (config : Config) (readFile : String → Except String String)
    (caAppendOk : Bool) : Except String ClientState :=
  let cfg := if config.port == 0 then { config with port := 432 } else config
  let caErr : Option String :=
    if cfg.ca.length > 0 then
      match readFile cfg.ca with
      | .error e => some e
      | .ok _ => if caAppendOk then none else some ("Bad certificate in " ++ cfg.ca)
    else none
  match caErr with
  | some e => .error e
  | none =>
    let dns : List String :=
      if cfg.dnsServers.length > 0 then (cfg.dnsServers.splitOn ",").map String.trim
      else ["1.1.1.1:53"]
    let token : Option (List Nat) :=
      if cfg.accessTokenFile.length > 0 then
        match readFile cfg.accessTokenFile with
        | .error _ => none
        | .ok content => some (goBase64Decode content).1
      else none
    .ok { config := cfg, serverName := "", remote := none,
          accessToken := token, dnsServers := dns }

/-- `Client.HaveAccessToken`: `if c.accessToken != nil { return true }; return false`. -/
def HaveAccessToken (accessToken : Option (List Nat)) : Bool :=
  if accessToken.isSome then true else false

/-! ## The dialer (`Client.dialContext`) -/

/-- `Client.dialContext` composed with `net.Dialer.DialContext`'s contract for
`Control` hooks.  `setMarkResult` is the outcome of the `syscall.SetsockoptInt`
call; the Go `Control` closure assigns that outcome to its named `err` return
(after logging) and returns it, and `net.Dialer` fails the dial whenever
`Control` returns a non-nil error.  `randIdx` models the `rand.Intn` draw for
the UDP DNS-server override (reduced modulo the list length to stay total;
`NewClient` guarantees a non-empty list). -/
def dialContext (firewallMark : Int) (setMarkResult : Option String)
    (dnsServers : List String) (randIdx : Nat)
    (dial : String → String → Except String String)
    (network addr : String) : Except String String :=
  let dialAddr := if network == "udp" then dnsServers.getD (randIdx % dnsServers.length) addr else addr
  if firewallMark > 0 then
    match setMarkResult with
    | some e => .error e
    | none => dial network dialAddr
  else dial network dialAddr

/-! ## The resolver (`Client.Resolve`) -/

/-- `net.IPAddr` as `LookupIPAddr` returns it; a `nil` `IP` field is possible. -/
structure IPAddrEntry where
  ip : Option (List Nat)
  zone : String
deriving DecidableEq, Repr

/-- State read and written by `Resolve`: the transport's TLS `ServerName` and
the sticky remote address. -/
structure ResolveState where
  remote : Option TCPAddr
  serverName : String
deriving DecidableEq, Repr

/-- `Client.Resolve`.  `parseIP` is `net.ParseIP`; `lookup` the outcome of
`resolver.LookupIPAddr`.  Returns the Go `error` (as `Option String`) and the
updated state. -/
def Resolve (host : String) (port : Int)
    (parseIP : String → Option (List Nat))
    (lookup : Except String (List IPAddrEntry))
    (s : ResolveState) : Option String × ResolveState :=
  match parseIP host with
  | some ip => (none, { remote := some ⟨ip, port⟩, serverName := "hideservers.net" })
  | none =>
    match lookup with
    | .error e =>
      match s.remote with
      | some _ => (none, s)
      | none => (some e, s)
    | .ok [] => (some ("dns lookup failed for " ++ host), s)
    | .ok (a0 :: _) =>
      match a0.ip with
      | none => (some ("no IP found for " ++ host), s)
      | some ip => (none, { remote := some ⟨ip, port⟩, serverName := host })

/-! ## The shared POST exchange (`Client.postJson`) -/

/-- The parts of `http.Response` the client reads; `body` is what `io.ReadAll`
yields on the 200 path (its read error is abstracted into the `client.Do`
outcome, as no claim depends on it). -/
structure HttpResponse where
  statusCode : Nat
  body : String
deriving DecidableEq, Repr

/-- The response handling of `Client.postJson` given the outcome of
`client.Do` (request marshalling/creation failures are part of the `.error`
outcome).  `403` maps to `ErrAppUpdateRequired`, any other non-200 status to
`ErrHttpStatusBad`, and `200` hands the body back to the caller. -/
def postJson (doResult : Except String HttpResponse) : Except String String :=
  match doResult with
  | .error e => .error e
  | .ok response =>
    if response.statusCode = 403 then .error "application update required"
    else if response.statusCode ≠ 200 then .error "bad HTTP status"
    else .ok response.body

/-! ## The protocol operations -/

/-- `strings.TrimSuffix`, over the character lists of the strings (Go slices
bytes; for the ASCII suffix involved the two views agree). -/
def trimSuffix (s suff : String) : String :=
  if suff.data.isSuffixOf s.data then ⟨s.data.take (s.data.length - suff.data.length)⟩ else s

/-- The fields of `rest.ConnectRequest` set by `Client.Connect`. -/
structure ConnectRequest where
  host : String
  domain : String
  accessToken : List Nat
  publicKey : List Nat
deriving DecidableEq, Repr

/-- Modelled from the spec: `ConnectRequest.Check` is defined in a repository
file that is not under src/ (only its caller `Client.Connect` is).  The spec
says each request type "self-validates required-field presence"; the connect
request "carries `Host` and `Domain`; Connect additionally carries the access
token (may be absent) and a raw public key"; and "a Connect request with an
empty public key must fail validation before any network I/O".  So the check
requires a non-empty host, domain and public key. -/
def connectRequestCheck (r : ConnectRequest) : Option String :=
  if r.host.length = 0 then some "missing host"
  else if r.domain.length = 0 then some "missing domain"
  else if r.publicKey.length = 0 then some "missing public key"
  else none

/-- The connect request `Client.Connect` builds from configuration and session
state (`accessToken.getD []` models the `nil`-tolerant `[]byte` field). -/
def buildConnectRequest (host domain : String) (accessToken : Option (List Nat))
    (key : List Nat) : ConnectRequest :=
  { host := trimSuffix host ".hideservers.net", domain := domain,
    accessToken := accessToken.getD [], publicKey := key }

/-- `Client.Connect` up to the POST exchange: build the request, run its
self-validation, then hand the URL built from `c.remote.String()` to the
exchange (`post` models `c.postJson`; the final `json.Unmarshal` into
`ConnectResponse` is downstream of everything the claims state and is carried by
the returned body).  Note that with an unresolved remote the URL host is the
string `"<nil>"`, which `net/url` accepts, so the request proceeds to dialing. -/
def Connect (host domain apiVersion : String) (accessToken : Option (List Nat))
    (remote : Option TCPAddr) (key : List Nat)
    (post : String → Except String String) : Except String String :=
  match connectRequestCheck (buildConnectRequest host domain accessToken key) with
  | some e => .error e
  | none => post ("https://" ++ tcpAddrString remote ++ "/" ++ apiVersion ++ "/connect")

/-- `Client.GetAccessToken` after its request `Check` (`checkErr` is that
outcome), given the `client.Do` outcome, the `json.Unmarshal`-into-`string`
outcome per body, and the `ioutil.WriteFile` outcome.  The combined statement
`if c.accessToken, err = base64.StdEncoding.DecodeString(...); err != nil`
assigns the (always non-nil) decode result to the token field *before* testing
the error, so the field is overwritten on the error path too. -/
def GetAccessToken (accessTokenFile : String) (checkErr : Option String)
    (doResult : Except String HttpResponse)
    (unmarshal : String → Except String String)
    (writeErr : Option String)
    (accessToken : Option (List Nat)) : Option String × Option (List Nat) :=
  match checkErr with
  | some e => (some e, accessToken)
  | none =>
    match postJson doResult with
    | .error e => (some e, accessToken)
    | .ok accessTokenJson =>
      match unmarshal accessTokenJson with
      | .error e => (some e, accessToken)
      | .ok accessTokenString =>
        let dec := goBase64Decode accessTokenString
        if dec.2 then (some "illegal base64 data", some dec.1)
        else if accessTokenFile.length > 0 then (writeErr, some dec.1)
        else (none, some dec.1)

/-- `Client.ApplyFilter` given the outcome of `Filter.Check` (defined outside
src/, passed through as an oracle) and of `client.Do`.  On a `postJson` error
the `response` slice is nil, so `string(response)` is `""`; a literal `"false"`
body replaces the (nil) error with the "filter failed" one. -/
def ApplyFilter (filterCheckErr : Option String)
    (doResult : Except String HttpResponse) : Option String :=
  match filterCheckErr with
  | some e => some e
  | none =>
    let pr := postJson doResult
    let response : String := match pr with | .ok body => body | .error _ => ""
    let err : Option String := match pr with | .ok _ => none | .error e => some e
    if response == "false" then some "filter failed" else err

/-! ## Theorems -/

/-! ### C1 — pin verification (`Client.Pins`) -/

theorem checkChain_none_iff (chain : List Certificate) :
    checkChain chain = none ↔ ∀ c ∈ chain, c.isCA = true → certPinOK c = true := by
  induction chain with
  | nil => simp [checkChain]
  | cons c rest ih =>
    cases hca : c.isCA with
    | false => simp [checkChain, hca, ih]
    | true =>
      cases hok : certPinOK c with
      | false => simp [checkChain, hca, hok]
      | true => simp [checkChain, hca, hok, ih]

theorem checkChain_cases (chain : List Certificate) :
    checkChain chain = none ∨ checkChain chain = some "bad public key PIN" := by
  induction chain with
  | nil => exact Or.inl rfl
  | cons c rest ih =>
    cases hca : c.isCA with
    | false => simpa [checkChain, hca] using ih
    | true =>
      cases hok : certPinOK c with
      | true => simpa [checkChain, hca, hok] using ih
      | false => exact Or.inr (by simp [checkChain, hca, hok])

theorem pins_none_iff (chains : List (List Certificate)) :
    Pins chains = none ↔ ∀ ch ∈ chains, ∀ c ∈ ch, c.isCA = true → certPinOK c = true := by
  induction chains with
  | nil => simp [Pins]
  | cons ch rest ih =>
    cases h : checkChain ch with
    | some e =>
      have hne : ¬ ∀ c ∈ ch, c.isCA = true → certPinOK c = true := by
        intro hall
        rw [← checkChain_none_iff] at hall
        rw [hall] at h
        exact Option.noConfusion h
      constructor
      · intro hcontr
        simp [Pins, h] at hcontr
      · intro hall
        exact absurd (hall ch (List.mem_cons_self ch rest)) hne
    | none =>
      have hch := (checkChain_none_iff ch).mp h
      simp only [Pins, h]
      rw [ih]
      constructor
      · intro hrest ch2 hch2
        rcases List.mem_cons.mp hch2 with rfl | hmem
        · exact hch
        · exact hrest ch2 hmem
      · intro hall ch2 hmem
        exact hall ch2 (List.mem_cons_of_mem ch hmem)

theorem pins_cases (chains : List (List Certificate)) :
    Pins chains = none ∨ Pins chains = some "bad public key PIN" := by
  induction chains with
  | nil => exact Or.inl rfl
  | cons ch rest ih =>
    rcases checkChain_cases ch with h | h
    · simpa [Pins, h] using ih
    · exact Or.inr (by simp [Pins, h])

/-- A CA certificate whose issuer common name and key digest match the first pin
table entry while its own subject common name matches no entry. -/
def evilSubjectCert : Certificate :=
  { isCA := true, subjectCN := "Evil CA", issuerCN := "Hide.Me Root CA",
    spkiDigestB64 := "AdKh8rXi68jeqv5kEzF4wJ9M2R89gFuMILRQ1uwADQI=" }

/-- A CA certificate matching the "Hide.Me Root CA" pin entry outright. -/
def rootOKCert : Certificate :=
  { isCA := true, subjectCN := "Hide.Me Root CA", issuerCN := "Hide.Me Root CA",
    spkiDigestB64 := "AdKh8rXi68jeqv5kEzF4wJ9M2R89gFuMILRQ1uwADQI=" }

/-- A CA certificate whose subject common name is in the pin table but whose key
digest does not match the stored pin. -/
def badDigestCert : Certificate :=
  { isCA := true, subjectCN := "Hide.Me Server CA #1", issuerCN := "Hide.Me Root CA",
    spkiDigestB64 := "0000000000000000000000000000000000000000000=" }

/-- C1 counterexample: the claim keys the pin table by the *issuer* common name,
but `Client.Pins` matches `certificate.Subject.CommonName`.  A chain whose single
CA certificate has its (issuer CN, digest) pair in the table is nevertheless
rejected with the bad-pin error, so verification does not succeed as the claim
states. -/
theorem C1_counterexample :
    (∀ c ∈ [evilSubjectCert], c.isCA = true → certPinOKIssuer c = true) ∧
    Pins [[evilSubjectCert]] = some "bad public key PIN" := by
  constructor
  · intro c hc hca
    rw [List.mem_singleton] at hc
    subst hc
    rfl
  · rfl

/-- C1 (amended: the pair looked up is (subject common name, digest), not
(issuer common name, digest)): pin verification succeeds exactly when every CA
certificate of every verified chain has its (subject CN, base64 SHA-256 SPKI
digest) pair in the authorized-pin table — non-CA certificates are never
consulted — and as soon as any CA certificate matches no table entry the whole
verification returns the bad-pin error, regardless of the other chains. -/
theorem C1_pins_subjectCN (chains : List (List Certificate)) :
    (Pins chains = none ↔ ∀ ch ∈ chains, ∀ c ∈ ch, c.isCA = true → certPinOK c = true) ∧
    ((∃ ch ∈ chains, ∃ c ∈ ch, c.isCA = true ∧ certPinOK c = false) →
      Pins chains = some "bad public key PIN") := by
  refine ⟨pins_none_iff chains, fun hex => ?_⟩
  rcases hex with ⟨ch, hch, c, hc, hca, hok⟩
  rcases pins_cases chains with h0 | h0
  · have := (pins_none_iff chains).mp h0 ch hch c hc hca
    rw [this] at hok
    exact Bool.noConfusion hok
  · exact h0

/-- C1 witness: a run with one passing chain and one chain holding a CA
certificate whose digest matches no pin ends in the bad-pin error. -/
theorem C1_pins_subjectCN_witness :
    Pins [[rootOKCert], [rootOKCert, badDigestCert]] = some "bad public key PIN" :=
  (C1_pins_subjectCN [[rootOKCert], [rootOKCert, badDigestCert]]).2
    ⟨[rootOKCert, badDigestCert], by decide, badDigestCert, by decide, rfl, rfl⟩

/-! ### C2, C8, C9 — the resolver (`Client.Resolve`) -/

/-- A `net.ParseIP` outcome for hosts that are not literal IP addresses. -/
def parseIPNone : String → Option (List Nat) := fun _ => none

/-- A `net.ParseIP` outcome recognising the literal `203.0.113.9`. -/
def parseIPLiteral : String → Option (List Nat) :=
  fun s => if s = "203.0.113.9" then some [203, 0, 113, 9] else none

/-- C2: on a non-literal host whose DNS lookup fails, `Resolve` keeps a
previously stored remote address unchanged and returns success (nil error); with
no prior resolution, the lookup failure itself is returned. -/
theorem C2_resolve_sticky (host : String) (port : Int)
    (parseIP : String → Option (List Nat)) (e : String) (s : ResolveState)
    (hp : parseIP host = none) :
    (∀ R : TCPAddr, s.remote = some R → Resolve host port parseIP (.error e) s = (none, s)) ∧
    (s.remote = none → Resolve host port parseIP (.error e) s = (some e, s)) := by
  constructor
  · intro R hR
    simp [Resolve, hp, hR]
  · intro hR
    simp [Resolve, hp, hR]

/-- C2 witness: with remote `1.2.3.4:432` stored, a failed lookup returns
success and the state untouched; with no prior remote the error surfaces. -/
theorem C2_resolve_sticky_witness :
    Resolve "free.hideservers.net" 432 parseIPNone (.error "lookup timeout")
        ⟨some ⟨[1, 2, 3, 4], 432⟩, "free.hideservers.net"⟩
      = (none, ⟨some ⟨[1, 2, 3, 4], 432⟩, "free.hideservers.net"⟩) ∧
    Resolve "free.hideservers.net" 432 parseIPNone (.error "lookup timeout") ⟨none, ""⟩
      = (some "lookup timeout", ⟨none, ""⟩) :=
  ⟨(C2_resolve_sticky "free.hideservers.net" 432 parseIPNone "lookup timeout"
      ⟨some ⟨[1, 2, 3, 4], 432⟩, "free.hideservers.net"⟩ rfl).1 ⟨[1, 2, 3, 4], 432⟩ rfl,
   (C2_resolve_sticky "free.hideservers.net" 432 parseIPNone "lookup timeout"
      ⟨none, ""⟩ rfl).2 rfl⟩

/-- C8: whenever the configured host parses as a literal IP, `Resolve` succeeds
with remote = (that IP, configured port) and TLS server name
`"hideservers.net"`, for every lookup outcome and prior state — in particular
the result does not depend on the DNS layer at all, so no query is consulted. -/
theorem C8_resolve_literal (host : String) (port : Int)
    (parseIP : String → Option (List Nat)) (ip : List Nat) (hp : parseIP host = some ip)
    (lookup : Except String (List IPAddrEntry)) (s : ResolveState) :
    Resolve host port parseIP lookup s
      = (none, { remote := some ⟨ip, port⟩, serverName := "hideservers.net" }) := by
  simp [Resolve, hp]

/-- C8 witness: `{Host: "203.0.113.9", Port: 432}` resolves to
`203.0.113.9:432` even when the DNS layer would fail. -/
theorem C8_resolve_literal_witness :
    Resolve "203.0.113.9" 432 parseIPLiteral (.error "no resolver available") ⟨none, ""⟩
      = (none, { remote := some ⟨[203, 0, 113, 9], 432⟩, serverName := "hideservers.net" }) :=
  C8_resolve_literal "203.0.113.9" 432 parseIPLiteral [203, 0, 113, 9] rfl
    (.error "no resolver available") ⟨none, ""⟩

/-- C9: a lookup returning zero addresses, or a first address with a nil IP,
makes `Resolve` return a descriptive error with the state — remote address and
TLS server name — unchanged. -/
theorem C9_resolve_bad_lookup (host : String) (port : Int)
    (parseIP : String → Option (List Nat)) (s : ResolveState) (hp : parseIP host = none) :
    (Resolve host port parseIP (.ok []) s = (some ("dns lookup failed for " ++ host), s)) ∧
    (∀ (a : IPAddrEntry) (rest : List IPAddrEntry), a.ip = none →
      Resolve host port parseIP (.ok (a :: rest)) s
        = (some ("no IP found for " ++ host), s)) := by
  constructor
  · simp [Resolve, hp]
  · intro a rest ha
    simp [Resolve, hp, ha]

/-- C9 witness: both malformed-lookup shapes at a concrete prior state. -/
theorem C9_resolve_bad_lookup_witness :
    Resolve "free.hideservers.net" 432 parseIPNone (.ok [])
        ⟨some ⟨[1, 2, 3, 4], 432⟩, "old.example"⟩
      = (some "dns lookup failed for free.hideservers.net",
         ⟨some ⟨[1, 2, 3, 4], 432⟩, "old.example"⟩) ∧
    Resolve "free.hideservers.net" 432 parseIPNone (.ok [⟨none, ""⟩])
        ⟨some ⟨[1, 2, 3, 4], 432⟩, "old.example"⟩
      = (some "no IP found for free.hideservers.net",
         ⟨some ⟨[1, 2, 3, 4], 432⟩, "old.example"⟩) :=
  ⟨(C9_resolve_bad_lookup "free.hideservers.net" 432 parseIPNone
      ⟨some ⟨[1, 2, 3, 4], 432⟩, "old.example"⟩ rfl).1,
   (C9_resolve_bad_lookup "free.hideservers.net" 432 parseIPNone
      ⟨some ⟨[1, 2, 3, 4], 432⟩, "old.example"⟩ rfl).2 ⟨none, ""⟩ [] rfl⟩

/-! ### C3 — `Client.GetAccessToken` decode failure -/

/-- A `json.Unmarshal`-into-`string` outcome: the body is the JSON string
`"AAAA!"`, whose contents are not valid base64. -/
def tokenUnmarshalAAAA : String → Except String String :=
  fun b => if b = "\"AAAA!\"" then .ok "AAAA!" else .error "json: cannot unmarshal"

/-- C3 (code-bug evaluation): an HTTP-200 refresh whose well-formed JSON string
is not valid base64 returns the decode error but *does* overwrite the stored
token with the partially decoded bytes — `DecodeString` returns the bytes
decoded before the error and the combined `if c.accessToken, err = ...`
statement assigns them before testing `err`.  A present credential `[9,9,9]` is
replaced by the partial decode `[0,0,0]` of `"AAAA!"`, and an absent credential
becomes present, flipping `HaveAccessToken`. -/
theorem C3_decode_error_overwrites_token :
    GetAccessToken "" none (.ok ⟨200, "\"AAAA!\""⟩) tokenUnmarshalAAAA none (some [9, 9, 9])
      = (some "illegal base64 data", some [0, 0, 0]) ∧
    GetAccessToken "" none (.ok ⟨200, "\"AAAA!\""⟩) tokenUnmarshalAAAA none none
      = (some "illegal base64 data", some [0, 0, 0]) ∧
    HaveAccessToken (some [0, 0, 0]) = true ∧ HaveAccessToken none = false :=
  ⟨rfl, rfl, rfl, rfl⟩

/-! ### C4 — `Client.dialContext` firewall-mark failure -/

/-- An underlying `net.Dialer` outcome that always connects. -/
def dialAlwaysOk : String → String → Except String String := fun _ addr => .ok addr

/-- C4 counterexample: with firewall mark 1 configured and the `setsockopt`
call failing, the dial does not proceed — the `Control` closure returns the
error through its named return and `net.Dialer` fails the dial with it, even
though the underlying connection attempt would have succeeded. -/
theorem C4_counterexample :
    dialContext 1 (some "operation not permitted") ["1.1.1.1:53"] 0 dialAlwaysOk
        "tcp" "5.6.7.8:432"
      = .error "operation not permitted" := rfl

/-- C4 (amended: a failure to set the socket mark is logged *and aborts the
dial* — the tagging error is propagated to the dial's caller): for every dial
with a positive configured firewall mark, a `setsockopt` failure makes
`dialContext` return that error. -/
theorem C4_mark_failure_aborts (firewallMark : Int) (e : String)
    (dnsServers : List String) (randIdx : Nat)
    (dial : String → String → Except String String) (network addr : String)
    (hm : 0 < firewallMark) :
    dialContext firewallMark (some e) dnsServers randIdx dial network addr = .error e := by
  simp [dialContext, hm]

/-- C4 witness: mark 2, failing `setsockopt`, concrete TCP dial. -/
theorem C4_mark_failure_aborts_witness :
    dialContext 2 (some "EPERM") ["1.1.1.1:53", "8.8.8.8:53"] 1 dialAlwaysOk
        "tcp" "9.9.9.9:432"
      = .error "EPERM" :=
  C4_mark_failure_aborts 2 "EPERM" ["1.1.1.1:53", "8.8.8.8:53"] 1 dialAlwaysOk
    "tcp" "9.9.9.9:432" (by decide)

/-! ### C5 — credential load at construction (`NewClient`) -/

/-- A configuration with an access-token file and otherwise plain values. -/
def c5Config : Config :=
  { apiVersion := "1.0.0", host := "free.hideservers.net", port := 432, domain := "hide.me",
    accessTokenFile := "accessToken.txt", username := "", password := "",
    restTimeout := 10, reconnectWait := 30, accessTokenUpdateDelay := 2,
    ca := "", firewallMark := 0, dnsServers := "" }

/-- A file system whose token file holds `"AAAA!"` — not valid base64. -/
def readTokenFileAAAA : String → Except String String :=
  fun path => if path = "accessToken.txt" then .ok "AAAA!" else .error "no such file"

/-- C5 (code-bug evaluation): construction with a readable token file whose
content fails base64 decoding still succeeds, but the credential does *not*
remain absent — `c.accessToken, _ = base64.StdEncoding.DecodeString(...)`
discards the error yet keeps the (always non-nil) partial decode, here
`[0,0,0]` from `"AAAA!"`, so `HaveAccessToken` reports true.  Only a *read*
failure leaves the credential absent, as the last conjunct shows. -/
theorem C5_decode_failure_keeps_credential :
    NewClient c5Config readTokenFileAAAA true
      = .ok { config := c5Config, serverName := "", remote := none,
              accessToken := some [0, 0, 0], dnsServers := ["1.1.1.1:53"] } ∧
    HaveAccessToken (some [0, 0, 0]) = true ∧
    NewClient c5Config (fun _ => .error "read failed") true
      = .ok { config := c5Config, serverName := "", remote := none,
              accessToken := none, dnsServers := ["1.1.1.1:53"] } :=
  ⟨rfl, rfl, rfl⟩

/-! ### C6 — `Client.Connect` validation order -/

theorem connectRequestCheck_empty_key (r : ConnectRequest) (hk : r.publicKey = []) :
    connectRequestCheck r ≠ none := by
  unfold connectRequestCheck
  by_cases h1 : r.host.length = 0
  · simp [h1]
  · by_cases h2 : r.domain.length = 0
    · simp [h1, h2]
    · simp [h1, h2, hk]

/-- A POST exchange that records which URL it was given. -/
def postEchoUrl : String → Except String String := fun url => .ok url

/-- C6 counterexample: with every request field present but *no resolved remote
address*, `Connect` does not return a validation error without network I/O —
the request's self-validation cannot see the remote address, the URL is built
from the nil remote as `https://<nil>/1.0.0/connect` (a host `net/url`
accepts), and the exchange proceeds to the network, here even succeeding. -/
theorem C6_counterexample :
    Connect "free.hideservers.net" "hide.me" "1.0.0" (some [1, 2]) none [7] postEchoUrl
      = .ok "https://<nil>/1.0.0/connect" := rfl

/-- C6 (amended: whenever a required *request field* is missing — in particular
when the public key is empty — Connect returns the validation error without
consulting the network; an unresolved remote address is not caught by
validation and reaches the network layer): a failing `Check` makes `Connect`
return that error for every network outcome, and an empty public key always
fails `Check`. -/
theorem C6_validation_before_network (host domain apiVersion : String)
    (accessToken : Option (List Nat)) (remote : Option TCPAddr) (key : List Nat) :
    (∀ e, connectRequestCheck (buildConnectRequest host domain accessToken key) = some e →
       ∀ post, Connect host domain apiVersion accessToken remote key post = .error e) ∧
    (key = [] →
       ∀ post, ∃ e, Connect host domain apiVersion accessToken remote key post = .error e) := by
  constructor
  · intro e he post
    simp [Connect, he]
  · intro hk post
    subst hk
    cases hc : connectRequestCheck (buildConnectRequest host domain accessToken []) with
    | none => exact absurd hc (connectRequestCheck_empty_key _ rfl)
    | some e => exact ⟨e, by simp [Connect, hc]⟩

/-- C6 witness: a connect request with an empty public key fails validation with
"missing public key" even though the network oracle would answer. -/
theorem C6_validation_before_network_witness :
    Connect "free.hideservers.net" "hide.me" "1.0.0" (some [1]) (some ⟨[5, 6, 7, 8], 432⟩)
        [] postEchoUrl
      = .error "missing public key" :=
  (C6_validation_before_network "free.hideservers.net" "hide.me" "1.0.0" (some [1])
      (some ⟨[5, 6, 7, 8], 432⟩) []).1 "missing public key" rfl postEchoUrl

/-! ### C7 — `Client.postJson` status handling -/

/-- C7: for the shared POST exchange, HTTP 403 yields the distinguished
"application update required" error, any other non-200 status the generic
"bad HTTP status" error, and 200 hands the body back for operation-specific
decoding. -/
theorem C7_postJson_status (response : HttpResponse) :
    (response.statusCode = 403 →
       postJson (.ok response) = .error "application update required") ∧
    (response.statusCode ≠ 403 → response.statusCode ≠ 200 →
       postJson (.ok response) = .error "bad HTTP status") ∧
    (response.statusCode = 200 → postJson (.ok response) = .ok response.body) := by
  refine ⟨fun h => ?_, fun h1 h2 => ?_, fun h => ?_⟩
  · simp [postJson, h]
  · simp [postJson, h1, h2]
  · simp [postJson, h]

/-- C7 witness: statuses 403, 500 and 200 at concrete responses. -/
theorem C7_postJson_status_witness :
    postJson (.ok ⟨403, ""⟩) = .error "application update required" ∧
    postJson (.ok ⟨500, ""⟩) = .error "bad HTTP status" ∧
    postJson (.ok ⟨200, "session-data"⟩) = .ok "session-data" :=
  ⟨(C7_postJson_status ⟨403, ""⟩).1 rfl,
   (C7_postJson_status ⟨500, ""⟩).2.1 (by decide) (by decide),
   (C7_postJson_status ⟨200, "session-data"⟩).2.2 rfl⟩

/-! ### C10 — `Client.ApplyFilter` "false" body -/

/-- C10: an HTTP-200 exchange whose body is the literal string `"false"` makes
`ApplyFilter` return the "filter failed" error despite the successful status. -/
theorem C10_filter_false_body :
    ApplyFilter none (.ok ⟨200, "false"⟩) = some "filter failed" := rfl

end HideClient
